import Mathlib

set_option maxRecDepth 65536

/-!
Verification of the meilisearch-sdk core: the `Query` builder and its
serde serialization contract (src/search.rs), the `SearchResult`
deserialization contract, and the `Error` classification pipeline
(src/errors.rs), shallowly embedded in Lean 4.

JSON values are modelled by an inductive `Json`; serde's derived
`Serialize` for `Query` (field order = declaration order,
`rename_all = "camelCase"`, `skip_serializing_if = "Option::is_none"`,
`serialize_with = "serialize_with_wildcard"` on the three wildcard
fields) is modelled by `serializeQuery`.  Rust strings are modelled by
`String` in data structures and by `List Char` where the error
classifier inspects them character-wise.
-/

/-- A JSON value, the target of serde serialization. -/
inductive Json where
  | null : Json
  | bool (b : Bool) : Json
  | num (n : Nat) : Json
  | str (s : String) : Json
  | arr (elems : List Json) : Json
  | obj (fields : List (String × Json)) : Json

/-- Association-list lookup of a field in a serialized JSON object,
mirroring how a downstream JSON parser locates a field by key. -/
def lookupField (k : String) : List (String × Json) → Option Json
  | [] => none
  | (k₂, v) :: rest => if k₂ = k then some v else lookupField k rest

/-- Field access on a JSON value: `none` when the value is not an object
or the key is absent. -/
def Json.getField (j : Json) (k : String) : Option Json :=
  match j with
  | Json.obj fields => lookupField k fields
  | _ => none

/- Wire keys produced by serde `rename_all = "camelCase"` (and the
explicit `rename = "q"` on the `query` field). -/

def qKey : String := "q"

def offsetKey : String := "offset"

def limitKey : String := "limit"

def filtersKey : String := "filters"

def facetFiltersKey : String := "facetFilters"

def facetsDistributionKey : String := "facetsDistribution"

def attributesToRetrieveKey : String := "attributesToRetrieve"

def attributesToCropKey : String := "attributesToCrop"

def cropLengthKey : String := "cropLength"

def attributesToHighlightKey : String := "attributesToHighlight"

def matchesKey : String := "matches"

/-- The name the `query` field would get under plain camelCase, had the
explicit `rename = "q"` attribute been absent. -/
def queryFieldName : String := "query"

/-- The wildcard marker emitted for the `Some(None)` state. -/
def wildcard : String := "*"

/-- `type AttributeToCrop<'a> = (&'a str, Option<usize>);` -/
def AttributeToCrop : Type := String × Option Nat

/-- The `Query` struct of src/search.rs: one mandatory field and ten
optional fields, in declaration order. -/
structure Query where
  query : String
  offset : Option Nat
  limit : Option Nat
  filters : Option String
  facet_filters : Option (List (List String))
  facets_distribution : Option (Option (List String))
  attributes_to_retrieve : Option (List String)
  attributes_to_crop : Option (Option (List (String × Option Nat)))
  crop_length : Option Nat
  attributes_to_highlight : Option (Option (List String))
  «matches» : Option Bool

/-- serde serialization of `&[&str]`: a JSON array of strings. -/
def serStrList (l : List String) : Json :=
  Json.arr (l.map Json.str)

/-- serde serialization of `&[&[&str]]`: a JSON array of arrays of strings. -/
def serStrListList (l : List (List String)) : Json :=
  Json.arr (l.map serStrList)

/-- serde serialization of `Option<usize>` in value position:
`None` is `null`, `Some(n)` is the number. -/
def serOptNat : Option Nat → Json
  | none => Json.null
  | some n => Json.num n

/-- serde serialization of one `AttributeToCrop` tuple: a two-element
JSON array. -/
def serAttributeToCrop (p : String × Option Nat) : Json :=
  Json.arr [Json.str p.1, serOptNat p.2]

/-- serde serialization of `&[AttributeToCrop]`. -/
def serCropList (l : List (String × Option Nat)) : Json :=
  Json.arr (l.map serAttributeToCrop)

/-- `serialize_with_wildcard` from src/search.rs: `Some(None)` emits the
literal `"*"`, `Some(Some(data))` emits the serialization of `data`,
`None` emits the unit/none value (in practice unreachable, because the
field also carries `skip_serializing_if = "Option::is_none"`). -/
def serialize_with_wildcard (ser : α → Json) : Option (Option α) → Json
  | some none => Json.str wildcard
  | some (some data) => ser data
  | none => Json.null

/-- One serialized field guarded by `skip_serializing_if = "Option::is_none"`:
absent field contributes nothing to the object. -/
def optField (k : String) (ser : α → Json) : Option α → List (String × Json)
  | none => []
  | some v => [(k, ser v)]

/-- One serialized field guarded by `skip_serializing_if` and rendered
through `serialize_with_wildcard`. -/
def wildField (k : String) (ser : α → Json) : Option (Option α) → List (String × Json)
  | none => []
  | some v => [(k, serialize_with_wildcard ser (some v))]

/-- The field list of the serde-serialized `Query`, in declaration order. -/
def queryFields (q : Query) : List (String × Json) :=
  (qKey, Json.str q.query) ::
  (optField offsetKey Json.num q.offset ++
  (optField limitKey Json.num q.limit ++
  (optField filtersKey Json.str q.filters ++
  (optField facetFiltersKey serStrListList q.facet_filters ++
  (wildField facetsDistributionKey serStrList q.facets_distribution ++
  (optField attributesToRetrieveKey serStrList q.attributes_to_retrieve ++
  (wildField attributesToCropKey serCropList q.attributes_to_crop ++
  (optField cropLengthKey Json.num q.crop_length ++
  (wildField attributesToHighlightKey serStrList q.attributes_to_highlight ++
  optField matchesKey Json.bool q.«matches»)))))))))

/-- serde serialization of a whole `Query`. -/
def serializeQuery (q : Query) : Json :=
  Json.obj (queryFields q)

/-- `Query::new`: only the mandatory `query` field is set. -/
def Query.new (query : String) : Query :=
  { query := query
    offset := none
    limit := none
    filters := none
    facet_filters := none
    facets_distribution := none
    attributes_to_retrieve := none
    attributes_to_crop := none
    attributes_to_highlight := none
    crop_length := none
    «matches» := none }

def Query.with_offset (self : Query) (offset : Nat) : Query :=
  { self with offset := some offset }

def Query.with_limit (self : Query) (limit : Nat) : Query :=
  { self with limit := some limit }

def Query.with_filters (self : Query) (filters : String) : Query :=
  { self with filters := some filters }

def Query.with_facet_filters (self : Query) (facet_filters : List (List String)) : Query :=
  { self with facet_filters := some facet_filters }

def Query.with_facets_distribution (self : Query) (facets_distribution : Option (List String)) : Query :=
  { self with facets_distribution := some facets_distribution }

def Query.with_attributes_to_retrieve (self : Query) (attributes_to_retrieve : List String) : Query :=
  { self with attributes_to_retrieve := some attributes_to_retrieve }

def Query.with_attributes_to_crop (self : Query) (attributes_to_crop : Option (List (String × Option Nat))) : Query :=
  { self with attributes_to_crop := some attributes_to_crop }

def Query.with_attributes_to_highlight (self : Query) (attributes_to_highlight : Option (List String)) : Query :=
  { self with attributes_to_highlight := some attributes_to_highlight }

def Query.with_crop_length (self : Query) (crop_length : Nat) : Query :=
  { self with crop_length := some crop_length }

def Query.with_matches (self : Query) (m : Bool) : Query :=
  { self with «matches» := some m }

/-- The derived `Clone` for `Query`: a field-by-field copy. -/
def Query.clone (self : Query) : Query :=
  { query := self.query
    offset := self.offset
    limit := self.limit
    filters := self.filters
    facet_filters := self.facet_filters
    facets_distribution := self.facets_distribution
    attributes_to_retrieve := self.attributes_to_retrieve
    attributes_to_crop := self.attributes_to_crop
    attributes_to_highlight := self.attributes_to_highlight
    crop_length := self.crop_length
    «matches» := self.«matches» }

/-- `Query::build(&mut self) -> Query { self.clone() }`, in explicit
state-passing form: the first component is the returned value, the
second the builder's state after the call. -/
def Query.build (self : Query) : Query × Query :=
  (self.clone, self)


/-- First-match combination of two lookups, used to state how a field
lookup traverses the serialized field list. -/
def firstSome (a b : Option Json) : Option Json :=
  match a with
  | some v => some v
  | none => b

lemma firstSome_none (a : Option Json) : firstSome a none = a := by
  cases a <;> rfl

lemma lookupField_opt_cons (k k₂ : String) (ser : α → Json) (v : Option α)
    (rest : List (String × Json)) :
    lookupField k (optField k₂ ser v ++ rest) =
      if k₂ = k then firstSome (Option.map ser v) (lookupField k rest)
      else lookupField k rest := by
  cases v <;> simp [optField, lookupField, firstSome]

lemma lookupField_wild_cons (k k₂ : String) (ser : α → Json) (v : Option (Option α))
    (rest : List (String × Json)) :
    lookupField k (wildField k₂ ser v ++ rest) =
      if k₂ = k then
        firstSome (Option.map (fun d => serialize_with_wildcard ser (some d)) v)
          (lookupField k rest)
      else lookupField k rest := by
  cases v <;> simp [wildField, lookupField, firstSome]

lemma lookupField_opt_nil (k k₂ : String) (ser : α → Json) (v : Option α) :
    lookupField k (optField k₂ ser v) =
      if k₂ = k then Option.map ser v else none := by
  cases v <;> simp [optField, lookupField]

lemma getField_offset (q : Query) :
    (serializeQuery q).getField offsetKey = Option.map Json.num q.offset := by
  simp [serializeQuery, Json.getField, queryFields, lookupField, lookupField_opt_cons,
    lookupField_wild_cons, lookupField_opt_nil, firstSome_none, qKey, offsetKey, limitKey,
    filtersKey, facetFiltersKey, facetsDistributionKey, attributesToRetrieveKey,
    attributesToCropKey, cropLengthKey, attributesToHighlightKey, matchesKey]

lemma getField_q (q : Query) :
    (serializeQuery q).getField qKey = some (Json.str q.query) := by
  simp [serializeQuery, Json.getField, queryFields, lookupField, lookupField_opt_cons,
    lookupField_wild_cons, lookupField_opt_nil, firstSome_none, qKey, offsetKey, limitKey,
    filtersKey, facetFiltersKey, facetsDistributionKey, attributesToRetrieveKey,
    attributesToCropKey, cropLengthKey, attributesToHighlightKey, matchesKey]

lemma getField_limit (q : Query) :
    (serializeQuery q).getField limitKey = Option.map Json.num q.limit := by
  simp [serializeQuery, Json.getField, queryFields, lookupField, lookupField_opt_cons,
    lookupField_wild_cons, lookupField_opt_nil, firstSome_none, qKey, offsetKey, limitKey,
    filtersKey, facetFiltersKey, facetsDistributionKey, attributesToRetrieveKey,
    attributesToCropKey, cropLengthKey, attributesToHighlightKey, matchesKey]

lemma getField_filters (q : Query) :
    (serializeQuery q).getField filtersKey = Option.map Json.str q.filters := by
  simp [serializeQuery, Json.getField, queryFields, lookupField, lookupField_opt_cons,
    lookupField_wild_cons, lookupField_opt_nil, firstSome_none, qKey, offsetKey, limitKey,
    filtersKey, facetFiltersKey, facetsDistributionKey, attributesToRetrieveKey,
    attributesToCropKey, cropLengthKey, attributesToHighlightKey, matchesKey]

lemma getField_facet_filters (q : Query) :
    (serializeQuery q).getField facetFiltersKey = Option.map serStrListList q.facet_filters := by
  simp [serializeQuery, Json.getField, queryFields, lookupField, lookupField_opt_cons,
    lookupField_wild_cons, lookupField_opt_nil, firstSome_none, qKey, offsetKey, limitKey,
    filtersKey, facetFiltersKey, facetsDistributionKey, attributesToRetrieveKey,
    attributesToCropKey, cropLengthKey, attributesToHighlightKey, matchesKey]

lemma getField_facets_distribution (q : Query) :
    (serializeQuery q).getField facetsDistributionKey = Option.map (fun d => serialize_with_wildcard serStrList (some d)) q.facets_distribution := by
  simp [serializeQuery, Json.getField, queryFields, lookupField, lookupField_opt_cons,
    lookupField_wild_cons, lookupField_opt_nil, firstSome_none, qKey, offsetKey, limitKey,
    filtersKey, facetFiltersKey, facetsDistributionKey, attributesToRetrieveKey,
    attributesToCropKey, cropLengthKey, attributesToHighlightKey, matchesKey]

lemma getField_attributes_to_retrieve (q : Query) :
    (serializeQuery q).getField attributesToRetrieveKey = Option.map serStrList q.attributes_to_retrieve := by
  simp [serializeQuery, Json.getField, queryFields, lookupField, lookupField_opt_cons,
    lookupField_wild_cons, lookupField_opt_nil, firstSome_none, qKey, offsetKey, limitKey,
    filtersKey, facetFiltersKey, facetsDistributionKey, attributesToRetrieveKey,
    attributesToCropKey, cropLengthKey, attributesToHighlightKey, matchesKey]

lemma getField_attributes_to_crop (q : Query) :
    (serializeQuery q).getField attributesToCropKey = Option.map (fun d => serialize_with_wildcard serCropList (some d)) q.attributes_to_crop := by
  simp [serializeQuery, Json.getField, queryFields, lookupField, lookupField_opt_cons,
    lookupField_wild_cons, lookupField_opt_nil, firstSome_none, qKey, offsetKey, limitKey,
    filtersKey, facetFiltersKey, facetsDistributionKey, attributesToRetrieveKey,
    attributesToCropKey, cropLengthKey, attributesToHighlightKey, matchesKey]

lemma getField_crop_length (q : Query) :
    (serializeQuery q).getField cropLengthKey = Option.map Json.num q.crop_length := by
  simp [serializeQuery, Json.getField, queryFields, lookupField, lookupField_opt_cons,
    lookupField_wild_cons, lookupField_opt_nil, firstSome_none, qKey, offsetKey, limitKey,
    filtersKey, facetFiltersKey, facetsDistributionKey, attributesToRetrieveKey,
    attributesToCropKey, cropLengthKey, attributesToHighlightKey, matchesKey]

lemma getField_attributes_to_highlight (q : Query) :
    (serializeQuery q).getField attributesToHighlightKey = Option.map (fun d => serialize_with_wildcard serStrList (some d)) q.attributes_to_highlight := by
  simp [serializeQuery, Json.getField, queryFields, lookupField, lookupField_opt_cons,
    lookupField_wild_cons, lookupField_opt_nil, firstSome_none, qKey, offsetKey, limitKey,
    filtersKey, facetFiltersKey, facetsDistributionKey, attributesToRetrieveKey,
    attributesToCropKey, cropLengthKey, attributesToHighlightKey, matchesKey]

lemma getField_matches (q : Query) :
    (serializeQuery q).getField matchesKey = Option.map Json.bool q.«matches» := by
  simp [serializeQuery, Json.getField, queryFields, lookupField, lookupField_opt_cons,
    lookupField_wild_cons, lookupField_opt_nil, firstSome_none, qKey, offsetKey, limitKey,
    filtersKey, facetFiltersKey, facetsDistributionKey, attributesToRetrieveKey,
    attributesToCropKey, cropLengthKey, attributesToHighlightKey, matchesKey]

lemma getField_query_field_name (q : Query) :
    (serializeQuery q).getField queryFieldName = none := by
  simp [serializeQuery, Json.getField, queryFields, lookupField, lookupField_opt_cons,
    lookupField_wild_cons, lookupField_opt_nil, firstSome_none, qKey, offsetKey, limitKey,
    filtersKey, facetFiltersKey, facetsDistributionKey, attributesToRetrieveKey,
    attributesToCropKey, cropLengthKey, attributesToHighlightKey, matchesKey, queryFieldName]

/- The literal error-body shapes matched by `From<&str> for Error` in
src/errors.rs.  Brace characters are written with hex escapes. -/

def indexAlreadyExistBodyStr : String := "\x7b\"message\":\"Impossible to create index; index already exists\"\x7d"

def invalidIndexUidBodyStr : String := "\x7b\"message\":\"Index must have a valid uid; Index uid can be of type integer or string only composed of alphanumeric characters, hyphens (-) and underscores (_).\"\x7d"

def cantInferPrimaryKeyBodyStr : String := "\x7b\"message\":\"Could not infer a primary key\"\x7d"

def maintenancePreStr : String := "\x7b\"message\":\"Server is in maintenance, please try again later\""

def indexNotFoundPreStr : String := "\x7b\"message\":\"Index "

def indexNotFoundSufStr : String := " not found\"\x7d"

/- The same shapes as character sequences, the form the classifier
inspects (a Rust `&str` is a sequence of characters). -/

def indexAlreadyExistBody : List Char := indexAlreadyExistBodyStr.data

def invalidIndexUidBody : List Char := invalidIndexUidBodyStr.data

def cantInferPrimaryKeyBody : List Char := cantInferPrimaryKeyBodyStr.data

def maintenancePre : List Char := maintenancePreStr.data

def indexNotFoundPre : List Char := indexNotFoundPreStr.data

def indexNotFoundSuf : List Char := indexNotFoundSufStr.data

/-- A `reqwest::Error` as far as `From<reqwest::Error> for Error` inspects
it: an optional HTTP status code (`error.status()`) plus the remaining
opaque failure detail. -/
structure ReqwestError where
  status : Option Nat
  detail : String
deriving DecidableEq

/-- The `Error` enum of src/errors.rs. -/
inductive Error where
  | UnreachableServer : Error
  | IndexAlreadyExist : Error
  | IndexNotFound : Error
  | InvalidIndexUid : Error
  | CantInferPrimaryKey : Error
  | ServerInMaintenance : Error
  | Unknown (message : List Char) : Error
  | Http (error : ReqwestError) : Error
deriving DecidableEq

/-- `From<&str> for Error`: the ordered match over known body shapes. -/
def errorFromStr (message : List Char) : Error :=
  if message = indexAlreadyExistBody then Error.IndexAlreadyExist
  else if message = invalidIndexUidBody then Error.InvalidIndexUid
  else if message = cantInferPrimaryKeyBody then Error.CantInferPrimaryKey
  else if maintenancePre.isPrefixOf message then Error.ServerInMaintenance
  else if indexNotFoundPre.isPrefixOf message && indexNotFoundSuf.isSuffixOf message then
    Error.IndexNotFound
  else Error.Unknown message

/-- `From<reqwest::Error> for Error`: no status code means the server was
never reached; otherwise the original transport failure is wrapped whole. -/
def errorFromReqwest (error : ReqwestError) : Error :=
  match error.status with
  | none => Error.UnreachableServer
  | some _ => Error.Http error

/-- How many of the five known body shapes a given body matches. -/
def patternMatchCount (s : List Char) : Nat :=
  (if s = indexAlreadyExistBody then 1 else 0) +
  (if s = invalidIndexUidBody then 1 else 0) +
  (if s = cantInferPrimaryKeyBody then 1 else 0) +
  (if maintenancePre.isPrefixOf s then 1 else 0) +
  (if indexNotFoundPre.isPrefixOf s && indexNotFoundSuf.isSuffixOf s then 1 else 0)

/-- The same classifier with the five known shapes tried in the opposite
order, used to express that the result does not depend on the order. -/
def errorFromStrReversed (message : List Char) : Error :=
  if indexNotFoundPre.isPrefixOf message && indexNotFoundSuf.isSuffixOf message then
    Error.IndexNotFound
  else if maintenancePre.isPrefixOf message then Error.ServerInMaintenance
  else if message = cantInferPrimaryKeyBody then Error.CantInferPrimaryKey
  else if message = invalidIndexUidBody then Error.InvalidIndexUid
  else if message = indexAlreadyExistBody then Error.IndexAlreadyExist
  else Error.Unknown message

lemma isPrefixOf_total (a b c : List Char) (ha : a.isPrefixOf c = true)
    (hb : b.isPrefixOf c = true) :
    a.isPrefixOf b = true ∨ b.isPrefixOf a = true := by
  induction c generalizing a b with
  | nil =>
    cases a with
    | nil => exact Or.inl (by simp)
    | cons x xs => simp [List.isPrefixOf] at ha
  | cons x cs ih =>
    cases a with
    | nil => exact Or.inl (by simp)
    | cons y ys =>
      cases b with
      | nil => exact Or.inr (by simp)
      | cons z zs =>
        simp only [List.isPrefixOf, Bool.and_eq_true, beq_iff_eq] at ha hb ⊢
        obtain ⟨hyx, ha₂⟩ := ha
        obtain ⟨hzx, hb₂⟩ := hb
        subst hyx
        subst hzx
        rcases ih ys zs ha₂ hb₂ with h | h
        · exact Or.inl ⟨rfl, h⟩
        · exact Or.inr ⟨rfl, h⟩

lemma maint_not_indexNotFound (s : List Char) (h : maintenancePre.isPrefixOf s = true) :
    indexNotFoundPre.isPrefixOf s = false := by
  cases hh : indexNotFoundPre.isPrefixOf s with
  | false => rfl
  | true =>
    rcases isPrefixOf_total _ _ _ hh h with hc | hc
    · exact absurd hc (by decide)
    · exact absurd hc (by decide)


/- Deserialization side: `SearchResult<T>` of src/search.rs with its
serde attributes `#[serde(flatten)]` on `result` and the two renamed
optional side-channels. -/

def formattedKey : String := "_formatted"

def matchesInfoKey : String := "_matchesInfo"

def titleKey : String := "title"

def startKey : String := "start"

def lengthKey : String := "length"

/-- The `MatchRange` struct of src/search.rs. -/
structure MatchRange where
  start : Nat
  length : Nat

/-- The `SearchResult<T>` struct of src/search.rs.  The `HashMap` of
`_matchesInfo` is modelled as an association list. -/
structure SearchResult (T : Type) where
  result : T
  formatted_result : Option T
  matches_info : Option (List (String × List MatchRange))

/-- serde decoding of a `MatchRange` from a JSON object. -/
def decodeMatchRange (j : Json) : Option MatchRange :=
  match j.getField startKey, j.getField lengthKey with
  | some (Json.num a), some (Json.num b) => some { start := a, length := b }
  | _, _ => none

/-- serde decoding of `Vec<A>` from a JSON array. -/
def decodeList (dec : Json → Option α) : Json → Option (List α)
  | Json.arr xs => xs.mapM dec
  | _ => none

/-- serde decoding of `HashMap<String, A>` from a JSON object. -/
def decodeStringMap (dec : Json → Option α) : Json → Option (List (String × α))
  | Json.obj fields => fields.mapM (fun kv => Option.map (fun v => (kv.1, v)) (dec kv.2))
  | _ => none

/-- serde decoding of the `_matchesInfo` value. -/
def decodeMatchesInfo (j : Json) : Option (List (String × List MatchRange)) :=
  decodeStringMap (decodeList decodeMatchRange) j

/-- serde decoding of an `Option<A>` struct field: a missing key and an
explicit `null` both decode to `None`. -/
def decodeOptField (dec : Json → Option α) : Option Json → Option (Option α)
  | none => some none
  | some Json.null => some none
  | some j => Option.map some (dec j)

/-- Remove one named field, as serde's `flatten` does with the keys the
outer struct consumed. -/
def removeKey (k : String) (fields : List (String × Json)) : List (String × Json) :=
  fields.filter (fun kv => !(kv.1 == k))

/-- serde decoding of `SearchResult<T>`: the two fixed sibling keys
populate the side-channels, every remaining top-level field is handed to
`T`'s decoder (`#[serde(flatten)]`). -/
def decodeSearchResult (decT : Json → Option T) : Json → Option (SearchResult T)
  | Json.obj fields =>
    match decodeOptField decT (lookupField formattedKey fields),
          decodeOptField decodeMatchesInfo (lookupField matchesInfoKey fields) with
    | some formatted, some info =>
      match decT (Json.obj (removeKey matchesInfoKey (removeKey formattedKey fields))) with
      | some r => some { result := r, formatted_result := formatted, matches_info := info }
      | none => none
    | _, _ => none
  | _ => none

/-- Modelled from the spec: the example caller-supplied document type
with one required string field `title` (no such concrete type exists
under src/; it parametrizes `SearchResult<T>` in the decoding example). -/
structure Document where
  title : String

/-- Modelled from the spec: the serde decoder of `Document`, which
requires `title` to be present as a string among the flattened fields
and ignores any other field. -/
def decodeDocument (j : Json) : Option Document :=
  match j.getField titleKey with
  | some (Json.str s) => some { title := s }
  | _ => none

def fooTitle : String := "Foo"

def emFoo : String := "<em>Foo</em>"

/-- The example hit object of the spec. -/
def exampleHit : Json :=
  Json.obj [(titleKey, Json.str fooTitle), (formattedKey, Json.obj [(titleKey, Json.str emFoo)])]


def wStr : String := "hello"

def witnessAttr : String := "overview"

/-- Claim C1: for every `Query` value, serialization preserves the
tri-state encoding of `facets_distribution`, `attributes_to_crop` and
`attributes_to_highlight` exactly: outer `None` omits the field from the
serialized request, `Some(None)` emits the literal string `"*"`,
`Some(Some(list))` emits the explicit list, and the three resulting
outputs are pairwise distinguishable. -/
theorem wildcard_tri_state_serialization (q : Query) :
    (q.facets_distribution = none →
      (serializeQuery q).getField facetsDistributionKey = none) ∧
    (q.facets_distribution = some none →
      (serializeQuery q).getField facetsDistributionKey = some (Json.str wildcard)) ∧
    (∀ l, q.facets_distribution = some (some l) →
      (serializeQuery q).getField facetsDistributionKey = some (serStrList l)) ∧
    (q.attributes_to_crop = none →
      (serializeQuery q).getField attributesToCropKey = none) ∧
    (q.attributes_to_crop = some none →
      (serializeQuery q).getField attributesToCropKey = some (Json.str wildcard)) ∧
    (∀ l, q.attributes_to_crop = some (some l) →
      (serializeQuery q).getField attributesToCropKey = some (serCropList l)) ∧
    (q.attributes_to_highlight = none →
      (serializeQuery q).getField attributesToHighlightKey = none) ∧
    (q.attributes_to_highlight = some none →
      (serializeQuery q).getField attributesToHighlightKey = some (Json.str wildcard)) ∧
    (∀ l, q.attributes_to_highlight = some (some l) →
      (serializeQuery q).getField attributesToHighlightKey = some (serStrList l)) ∧
    (∀ l : List String, (none : Option Json) ≠ some (Json.str wildcard) ∧
      (none : Option Json) ≠ some (serStrList l) ∧
      some (Json.str wildcard) ≠ some (serStrList l)) ∧
    (∀ l : List (String × Option Nat), (none : Option Json) ≠ some (serCropList l) ∧
      some (Json.str wildcard) ≠ some (serCropList l)) := by
  refine ⟨?_, ?_, ?_, ?_, ?_, ?_, ?_, ?_, ?_, ?_, ?_⟩
  · intro h; rw [getField_facets_distribution, h]; rfl
  · intro h; rw [getField_facets_distribution, h]; rfl
  · intro l h; rw [getField_facets_distribution, h]; rfl
  · intro h; rw [getField_attributes_to_crop, h]; rfl
  · intro h; rw [getField_attributes_to_crop, h]; rfl
  · intro l h; rw [getField_attributes_to_crop, h]; rfl
  · intro h; rw [getField_attributes_to_highlight, h]; rfl
  · intro h; rw [getField_attributes_to_highlight, h]; rfl
  · intro l h; rw [getField_attributes_to_highlight, h]; rfl
  · intro l; exact ⟨by simp, by simp, by simp [serStrList]⟩
  · intro l; exact ⟨by simp, by simp [serCropList]⟩

def witnessQueryC1 : Query :=
  ((Query.new wStr).with_facets_distribution none).with_attributes_to_crop
    (some [(witnessAttr, some 5)])

theorem wildcard_tri_state_serialization_witness :
    (serializeQuery witnessQueryC1).getField facetsDistributionKey = some (Json.str wildcard) ∧
    (serializeQuery witnessQueryC1).getField attributesToCropKey =
      some (serCropList [(witnessAttr, some 5)]) ∧
    (serializeQuery witnessQueryC1).getField attributesToHighlightKey = none :=
  ⟨(wildcard_tri_state_serialization witnessQueryC1).2.1 rfl,
   (wildcard_tri_state_serialization witnessQueryC1).2.2.2.2.2.1 [(witnessAttr, some 5)] rfl,
   (wildcard_tri_state_serialization witnessQueryC1).2.2.2.2.2.2.1 rfl⟩

/-- Claim C3 (counterexample): contrary to the claim,
`attributes_to_retrieve` cannot represent or transmit the wildcard-all
state: no `Query` value serializes that field to the wildcard marker
`"*"`, because its type is a plain option of a list. -/
theorem attributes_to_retrieve_no_wildcard :
    ¬ ∃ q : Query,
        (serializeQuery q).getField attributesToRetrieveKey = some (Json.str wildcard) := by
  rintro ⟨q, h⟩
  rw [getField_attributes_to_retrieve] at h
  cases hv : q.attributes_to_retrieve with
  | none => rw [hv] at h; exact Option.noConfusion h
  | some l => rw [hv] at h; simp [serStrList] at h

/-- Claim C3 (amended): `facets_distribution`, `attributes_to_crop` and
`attributes_to_highlight` are each tri-state (absent / wildcard-all /
explicit list), but `attributes_to_retrieve` is only two-state: it is
omitted when absent, emitted as the explicit list when set, and never
emitted as the wildcard marker `"*"`. -/
theorem tri_state_fields_amended (q : Query) :
    (q.facets_distribution = none →
      (serializeQuery q).getField facetsDistributionKey = none) ∧
    (q.facets_distribution = some none →
      (serializeQuery q).getField facetsDistributionKey = some (Json.str wildcard)) ∧
    (∀ l, q.facets_distribution = some (some l) →
      (serializeQuery q).getField facetsDistributionKey = some (serStrList l)) ∧
    (q.attributes_to_crop = none →
      (serializeQuery q).getField attributesToCropKey = none) ∧
    (q.attributes_to_crop = some none →
      (serializeQuery q).getField attributesToCropKey = some (Json.str wildcard)) ∧
    (∀ l, q.attributes_to_crop = some (some l) →
      (serializeQuery q).getField attributesToCropKey = some (serCropList l)) ∧
    (q.attributes_to_highlight = none →
      (serializeQuery q).getField attributesToHighlightKey = none) ∧
    (q.attributes_to_highlight = some none →
      (serializeQuery q).getField attributesToHighlightKey = some (Json.str wildcard)) ∧
    (∀ l, q.attributes_to_highlight = some (some l) →
      (serializeQuery q).getField attributesToHighlightKey = some (serStrList l)) ∧
    (q.attributes_to_retrieve = none →
      (serializeQuery q).getField attributesToRetrieveKey = none) ∧
    (∀ l, q.attributes_to_retrieve = some l →
      (serializeQuery q).getField attributesToRetrieveKey = some (serStrList l)) ∧
    (serializeQuery q).getField attributesToRetrieveKey ≠ some (Json.str wildcard) := by
  refine ⟨?_, ?_, ?_, ?_, ?_, ?_, ?_, ?_, ?_, ?_, ?_, ?_⟩
  · intro h; rw [getField_facets_distribution, h]; rfl
  · intro h; rw [getField_facets_distribution, h]; rfl
  · intro l h; rw [getField_facets_distribution, h]; rfl
  · intro h; rw [getField_attributes_to_crop, h]; rfl
  · intro h; rw [getField_attributes_to_crop, h]; rfl
  · intro l h; rw [getField_attributes_to_crop, h]; rfl
  · intro h; rw [getField_attributes_to_highlight, h]; rfl
  · intro h; rw [getField_attributes_to_highlight, h]; rfl
  · intro l h; rw [getField_attributes_to_highlight, h]; rfl
  · intro h; rw [getField_attributes_to_retrieve, h]; rfl
  · intro l h; rw [getField_attributes_to_retrieve, h]; rfl
  · rw [getField_attributes_to_retrieve]
    cases q.attributes_to_retrieve <;> simp [serStrList]

def witnessQueryC3 : Query := (Query.new wStr).with_attributes_to_retrieve [witnessAttr]

theorem tri_state_fields_amended_witness :
    (serializeQuery (Query.new wStr)).getField attributesToRetrieveKey = none ∧
    (serializeQuery witnessQueryC3).getField attributesToRetrieveKey =
      some (serStrList [witnessAttr]) ∧
    (serializeQuery witnessQueryC1).getField facetsDistributionKey = some (Json.str wildcard) :=
  ⟨(tri_state_fields_amended (Query.new wStr)).2.2.2.2.2.2.2.2.2.1 rfl,
   (tri_state_fields_amended witnessQueryC3).2.2.2.2.2.2.2.2.2.2.1 [witnessAttr] rfl,
   (tri_state_fields_amended witnessQueryC1).2.1 rfl⟩

/-- Claim C6: for every builder state, `build` returns a copy equal to
the builder's current configuration and leaves the builder state
unchanged, so the builder can be reused for further configuration and
repeated builds. -/
theorem build_returns_equal_copy (q : Query) :
    (Query.build q).1 = q ∧ (Query.build q).2 = q := by
  constructor
  · show Query.clone q = q
    cases q
    rfl
  · rfl

/-- Claim C7: starting from `Query::new(q)`, `with_offset(42)` then
`with_limit(21)` then `build` serializes to an object holding exactly
`q`, `offset: 42` and `limit: 21`; and in general every optional field
that was never set is omitted from the serialized request. -/
theorem offset_limit_serialization (s : String) (q : Query) :
    serializeQuery ((((Query.new s).with_offset 42).with_limit 21).build).1 =
      Json.obj [(qKey, Json.str s), (offsetKey, Json.num 42), (limitKey, Json.num 21)] ∧
    (q.offset = none → (serializeQuery q).getField offsetKey = none) ∧
    (q.limit = none → (serializeQuery q).getField limitKey = none) ∧
    (q.filters = none → (serializeQuery q).getField filtersKey = none) ∧
    (q.facet_filters = none → (serializeQuery q).getField facetFiltersKey = none) ∧
    (q.facets_distribution = none → (serializeQuery q).getField facetsDistributionKey = none) ∧
    (q.attributes_to_retrieve = none →
      (serializeQuery q).getField attributesToRetrieveKey = none) ∧
    (q.attributes_to_crop = none → (serializeQuery q).getField attributesToCropKey = none) ∧
    (q.crop_length = none → (serializeQuery q).getField cropLengthKey = none) ∧
    (q.attributes_to_highlight = none →
      (serializeQuery q).getField attributesToHighlightKey = none) ∧
    (q.«matches» = none → (serializeQuery q).getField matchesKey = none) := by
  refine ⟨rfl, ?_, ?_, ?_, ?_, ?_, ?_, ?_, ?_, ?_, ?_⟩
  · intro h; rw [getField_offset, h]; rfl
  · intro h; rw [getField_limit, h]; rfl
  · intro h; rw [getField_filters, h]; rfl
  · intro h; rw [getField_facet_filters, h]; rfl
  · intro h; rw [getField_facets_distribution, h]; rfl
  · intro h; rw [getField_attributes_to_retrieve, h]; rfl
  · intro h; rw [getField_attributes_to_crop, h]; rfl
  · intro h; rw [getField_crop_length, h]; rfl
  · intro h; rw [getField_attributes_to_highlight, h]; rfl
  · intro h; rw [getField_matches, h]; rfl

theorem offset_limit_serialization_witness :
    serializeQuery ((((Query.new wStr).with_offset 42).with_limit 21).build).1 =
      Json.obj [(qKey, Json.str wStr), (offsetKey, Json.num 42), (limitKey, Json.num 21)] ∧
    (serializeQuery (Query.new wStr)).getField offsetKey = none ∧
    (serializeQuery (Query.new wStr)).getField matchesKey = none :=
  ⟨(offset_limit_serialization wStr (Query.new wStr)).1,
   (offset_limit_serialization wStr (Query.new wStr)).2.1 rfl,
   (offset_limit_serialization wStr (Query.new wStr)).2.2.2.2.2.2.2.2.2.2 rfl⟩

/-- Claim C8: for every query string, serializing the `Query` produced
by `new` with no further mutator calls yields a request object that
contains exactly one field. -/
theorem new_query_single_field (s : String) :
    ∃ k v, serializeQuery (Query.new s) = Json.obj [(k, v)] :=
  ⟨qKey, Json.str s, rfl⟩

/-- Claim C10: the mandatory query field is serialized under the wire
key `"q"` rather than under the name `"query"`: the request built from
`new(s)` alone is the single-field object with key `q` and value `s`. -/
theorem query_wire_key_q (s : String) :
    serializeQuery (Query.new s) = Json.obj [(qKey, Json.str s)] ∧
    (serializeQuery (Query.new s)).getField qKey = some (Json.str s) ∧
    (serializeQuery (Query.new s)).getField queryFieldName = none :=
  ⟨rfl, getField_q (Query.new s), getField_query_field_name (Query.new s)⟩

def indexNotFoundExampleStr : String := "\x7b\"message\":\"Index abc not found\"\x7d"

def indexNotFoundExample : List Char := indexNotFoundExampleStr.data

def teapotStr : String := "\x7b\"message\":\"teapot\"\x7d"

def teapotBody : List Char := teapotStr.data

/-- Claim C2: classification of a response body yields
`IndexAlreadyExist`, `InvalidIndexUid` and `CantInferPrimaryKey` for the
three exact bodies, `ServerInMaintenance` for any body starting with the
maintenance prefix, `IndexNotFound` for any body starting with
the Index prefix and ending with the not-found suffix, and `Unknown`
carrying the original string unchanged for every other body. -/
theorem error_body_classification (s : List Char) :
    (s = indexAlreadyExistBody → errorFromStr s = Error.IndexAlreadyExist) ∧
    (s = invalidIndexUidBody → errorFromStr s = Error.InvalidIndexUid) ∧
    (s = cantInferPrimaryKeyBody → errorFromStr s = Error.CantInferPrimaryKey) ∧
    (maintenancePre.isPrefixOf s = true → errorFromStr s = Error.ServerInMaintenance) ∧
    (indexNotFoundPre.isPrefixOf s = true → indexNotFoundSuf.isSuffixOf s = true →
      errorFromStr s = Error.IndexNotFound) ∧
    (s ≠ indexAlreadyExistBody → s ≠ invalidIndexUidBody → s ≠ cantInferPrimaryKeyBody →
      maintenancePre.isPrefixOf s = false →
      (indexNotFoundPre.isPrefixOf s && indexNotFoundSuf.isSuffixOf s) = false →
      errorFromStr s = Error.Unknown s) := by
  refine ⟨?_, ?_, ?_, ?_, ?_, ?_⟩
  · intro h; subst h; decide
  · intro h; subst h; decide
  · intro h; subst h; decide
  · intro h
    have h₁ : s ≠ indexAlreadyExistBody := by
      intro e; subst e; exact absurd h (by decide)
    have h₂ : s ≠ invalidIndexUidBody := by
      intro e; subst e; exact absurd h (by decide)
    have h₃ : s ≠ cantInferPrimaryKeyBody := by
      intro e; subst e; exact absurd h (by decide)
    simp [errorFromStr, h₁, h₂, h₃, h]
  · intro hp hs
    have h₁ : s ≠ indexAlreadyExistBody := by
      intro e; subst e; exact absurd hp (by decide)
    have h₂ : s ≠ invalidIndexUidBody := by
      intro e; subst e; exact absurd hs (by decide)
    have h₃ : s ≠ cantInferPrimaryKeyBody := by
      intro e; subst e; exact absurd hp (by decide)
    have h₄ : maintenancePre.isPrefixOf s = false := by
      cases hh : maintenancePre.isPrefixOf s with
      | false => rfl
      | true =>
        rw [maint_not_indexNotFound s hh] at hp
        exact Bool.noConfusion hp
    simp [errorFromStr, h₁, h₂, h₃, h₄, hp, hs]
  · intro h₁ h₂ h₃ h₄ h₅
    simp [errorFromStr, h₁, h₂, h₃, h₄, h₅]

theorem error_body_classification_witness :
    errorFromStr indexNotFoundExample = Error.IndexNotFound ∧
    errorFromStr teapotBody = Error.Unknown teapotBody :=
  ⟨(error_body_classification indexNotFoundExample).2.2.2.2.1 (by decide) (by decide),
   (error_body_classification teapotBody).2.2.2.2.2 (by decide) (by decide) (by decide)
     (by decide) (by decide)⟩

def unreachableExampleDetail : String := "connection refused"

def httpExampleDetail : String := "internal server error"

def unreachableExample : ReqwestError := { status := none, detail := unreachableExampleDetail }

def httpExample : ReqwestError := { status := some 500, detail := httpExampleDetail }

/-- Claim C4: a transport failure classifies as `UnreachableServer` if
and only if it carries no HTTP status code, and otherwise as `Http`
wrapping the original transport failure. -/
theorem reqwest_error_classification (e : ReqwestError) :
    (errorFromReqwest e = Error.UnreachableServer ↔ e.status = none) ∧
    (∀ c, e.status = some c → errorFromReqwest e = Error.Http e) := by
  cases h : e.status with
  | none =>
    constructor
    · simp [errorFromReqwest, h]
    · intro c hc
      exact Option.noConfusion hc
  | some c =>
    constructor
    · simp [errorFromReqwest, h]
    · intro d hd
      simp [errorFromReqwest, h]

theorem reqwest_error_classification_witness :
    errorFromReqwest unreachableExample = Error.UnreachableServer ∧
    errorFromReqwest httpExample = Error.Http httpExample :=
  ⟨(reqwest_error_classification unreachableExample).1.mpr rfl,
   (reqwest_error_classification httpExample).2 500 rfl⟩

/-- Claim C5: the five known error-body shapes are mutually exclusive —
every body matches at most one of them — and consequently classification
does not depend on the order in which the shapes are tried. -/
theorem error_patterns_mutually_exclusive (s : List Char) :
    patternMatchCount s ≤ 1 ∧ errorFromStr s = errorFromStrReversed s := by
  by_cases h₁ : s = indexAlreadyExistBody
  · subst h₁; decide
  by_cases h₂ : s = invalidIndexUidBody
  · subst h₂; decide
  by_cases h₃ : s = cantInferPrimaryKeyBody
  · subst h₃; decide
  by_cases h₄ : maintenancePre.isPrefixOf s = true
  · have h₅ : indexNotFoundPre.isPrefixOf s = false := maint_not_indexNotFound s h₄
    constructor
    · simp [patternMatchCount, h₁, h₂, h₃, h₄, h₅]
    · simp [errorFromStr, errorFromStrReversed, h₁, h₂, h₃, h₄, h₅]
  · have h₄f : maintenancePre.isPrefixOf s = false := by
      cases hh : maintenancePre.isPrefixOf s with
      | false => rfl
      | true => exact absurd hh h₄
    by_cases h₅ : (indexNotFoundPre.isPrefixOf s && indexNotFoundSuf.isSuffixOf s) = true
    · constructor
      · simp [patternMatchCount, h₁, h₂, h₃, h₄f, h₅]
      · simp [errorFromStr, errorFromStrReversed, h₁, h₂, h₃, h₄f, h₅]
    · have h₅f : (indexNotFoundPre.isPrefixOf s && indexNotFoundSuf.isSuffixOf s) = false := by
        cases hh : (indexNotFoundPre.isPrefixOf s && indexNotFoundSuf.isSuffixOf s) with
        | false => rfl
        | true => exact absurd hh h₅
      constructor
      · simp [patternMatchCount, h₁, h₂, h₃, h₄f, h₅f]
      · simp [errorFromStr, errorFromStrReversed, h₁, h₂, h₃, h₄f, h₅f]

/-- Claim C9: decoding the hit object with a `title` field and a
`_formatted` sibling against the document type with a required string
field `title` yields a `SearchResult` whose flattened result has the
plain title, whose `formatted_result` carries the formatted title, and
whose `matches_info` is `None`. -/
theorem search_result_flatten_decode :
    ∃ r : SearchResult Document,
      decodeSearchResult decodeDocument exampleHit = some r ∧
      r.result.title = fooTitle ∧
      r.formatted_result = some { title := emFoo } ∧
      r.matches_info = none :=
  ⟨{ result := { title := fooTitle }, formatted_result := some { title := emFoo },
     matches_info := none }, rfl, rfl, rfl, rfl⟩
